import Mathlib

/-!
Shallow embedding of the kloudlib component value builders
(MetalLB, Grafana, NginxIngress wrappers) and proofs about the
values trees they produce.

JavaScript objects are modelled as association lists of entries in
construction order; object spread and duplicate keys follow the
last-binding-wins lookup `objLookup`. `undefined`/absent optional
values are `Option.none`; an emitted key whose value is `undefined`
is modelled as an `Option.none` field (the key is dropped on
serialisation).
-/

namespace Kloudlib

/-- Lookup in a JS-object association list: a later binding for the same
key overwrites an earlier one (object literal duplicate keys / spread). -/
def objLookup (m : List (String × String)) (k : String) : Option String :=
  m.foldl (fun acc p => if p.1 = k then some p.2 else acc) none

def objLookupAux (init : Option String) (m : List (String × String)) (k : String) :
    Option String :=
  m.foldl (fun acc p => if p.1 = k then some p.2 else acc) init

theorem objLookupAux_elim (init : Option String) (m : List (String × String))
    (k : String) :
    objLookupAux init m k = ((objLookup m k).rec init some) := by
  induction m generalizing init with
  | nil => rfl
  | cons p rest ih =>
    have hstep : ∀ i : Option String,
        objLookupAux i (p :: rest) k =
          objLookupAux (if p.1 = k then some p.2 else i) rest k := by
      intro i
      simp [objLookupAux]
    rw [hstep init]
    rw [ih (if p.1 = k then some p.2 else init)]
    have hhead : objLookup (p :: rest) k =
        objLookupAux (if p.1 = k then some p.2 else none) rest k := by
      simp [objLookup, objLookupAux]
    rw [hhead, ih (if p.1 = k then some p.2 else none)]
    cases hrest : objLookup rest k with
    | none => by_cases hk : p.1 = k <;> simp [hk]
    | some v => simp

theorem objLookup_append (xs ys : List (String × String)) (k : String) :
    objLookup (xs ++ ys) k =
      ((objLookup ys k).rec (objLookup xs k) some) := by
  have h1 : objLookup (xs ++ ys) k = objLookupAux (objLookup xs k) ys k := by
    simp [objLookup, objLookupAux, List.foldl_append]
  rw [h1, objLookupAux_elim]

/-- On an append, a binding present in the later list wins. -/
theorem objLookup_append_right (xs ys : List (String × String)) (k v : String)
    (h : objLookup ys k = some v) :
    objLookup (xs ++ ys) k = some v := by
  rw [objLookup_append, h]

/-- On an append, a key missing from the later list falls back to the earlier one. -/
theorem objLookup_append_left (xs ys : List (String × String)) (k : String)
    (h : objLookup ys k = none) :
    objLookup (xs ++ ys) k = objLookup xs k := by
  rw [objLookup_append, h]

/-! ## NginxIngress (src/packages/nginx-ingress/index.ts) -/

namespace NginxIngress

structure MatchExpression where
  key : String
  operator : String
  values : List String
deriving DecidableEq, Repr

structure LabelSelector where
  matchExpressions : List MatchExpression
deriving DecidableEq, Repr

structure PodAffinityTerm where
  topologyKey : String
  labelSelector : LabelSelector
deriving DecidableEq, Repr

structure WeightedPodAffinityTerm where
  weight : Nat
  podAffinityTerm : PodAffinityTerm
deriving DecidableEq, Repr

structure PodAntiAffinity where
  preferredDuringSchedulingIgnoredDuringExecution : List WeightedPodAffinityTerm
deriving DecidableEq, Repr

structure Affinity where
  podAntiAffinity : PodAntiAffinity
deriving DecidableEq, Repr

/-- `NginxIngressDeploymentMode` input record (without the literal kind tag,
which the `Mode` sum below carries). -/
structure DeploymentModeProps where
  replicas : Option Int
  loadBalancerIP : Option String
  serviceAnnotations : Option (List (String × String))
deriving DecidableEq, Repr

inductive Mode where
  | deployment (props : DeploymentModeProps)
  | daemonSet
deriving DecidableEq, Repr

structure DeploymentServiceValues where
  type : String
  loadBalancerIP : Option String
  externalTrafficPolicy : String
  annotations : Option (List (String × String))
deriving DecidableEq, Repr

structure DeploymentControllerValues where
  kind : String
  replicaCount : Int
  service : DeploymentServiceValues
  affinity : Option Affinity
deriving DecidableEq, Repr

structure DaemonSetServiceValues where
  enabled : Bool
deriving DecidableEq, Repr

structure DaemonSetOptions where
  useHostPort : Bool
deriving DecidableEq, Repr

structure DaemonSetControllerValues where
  kind : String
  reportNodeInternalIp : Bool
  service : DaemonSetServiceValues
  daemonset : DaemonSetOptions
deriving DecidableEq, Repr

inductive ControllerValues where
  | deployment (v : DeploymentControllerValues)
  | daemonSet (v : DaemonSetControllerValues)
deriving DecidableEq, Repr

/-- `NginxIngress.deploymentValues`: the anti-affinity block emitted when
`replicas > 1`. -/
def nginxAntiAffinity : Affinity :=
  { podAntiAffinity :=
      { preferredDuringSchedulingIgnoredDuringExecution :=
          [ { weight := 1
              podAffinityTerm :=
                { topologyKey := "kubernetes.io/hostname"
                  labelSelector :=
                    { matchExpressions :=
                        [ { key := "app", operator := "In"
                            values := ["nginx-ingress"] },
                          { key := "component", operator := "In"
                            values := ["controller"] } ] } } } ] } }

/-- `NginxIngress.deploymentValues(props)`. -/
def deploymentValues (props : DeploymentModeProps) : DeploymentControllerValues :=
  let replicas := props.replicas.getD 1
  { kind := "Deployment"
    replicaCount := replicas
    service :=
      { type := "LoadBalancer"
        loadBalancerIP := props.loadBalancerIP
        externalTrafficPolicy := "Local"
        annotations := props.serviceAnnotations }
    affinity := if replicas ≤ 1 then none else some nginxAntiAffinity }

/-- `NginxIngress.daemonSetValues(props)`. -/
def daemonSetValues : DaemonSetControllerValues :=
  { kind := "DaemonSet"
    reportNodeInternalIp := true
    service := { enabled := false }
    daemonset := { useHostPort := true } }

/-- `NginxIngress.controllerValues(props)`: mode dispatch with the
Deployment-with-one-replica default. -/
def controllerValues (mode : Option Mode) : ControllerValues :=
  match mode with
  | some Mode.daemonSet => ControllerValues.daemonSet daemonSetValues
  | some (Mode.deployment p) => ControllerValues.deployment (deploymentValues p)
  | none =>
      ControllerValues.deployment
        (deploymentValues
          { replicas := some 1, loadBalancerIP := none, serviceAnnotations := none })

structure L4ServiceBackend where
  ns : String
  serviceName : String
  servicePort : Nat
deriving DecidableEq, Repr

/-- The locator string interpolated for one backend:
`namespace/serviceName:servicePort`. -/
def l4Backend (b : L4ServiceBackend) : String :=
  b.ns ++ "/" ++ b.serviceName ++ ":" ++ toString b.servicePort

/-- `NginxIngress.l4Services(props)`: each port entry is mapped to its
locator string. -/
def l4Services (props : List (Nat × L4ServiceBackend)) : List (Nat × String) :=
  props.map (fun p => (p.1, l4Backend p.2))

end NginxIngress

/-! ## MetalLB (src/unnamed/part_000) -/

namespace MetalLB

structure AddressPool where
  name : String
  protocol : String
  addresses : List String
deriving DecidableEq, Repr

/-- One emitted `configInline.address-pools` entry; `avoidBuggyIps` models the
`avoid-buggy-ips` key. -/
structure PoolEntry where
  name : String
  protocol : String
  addresses : List String
  avoidBuggyIps : Bool
deriving DecidableEq, Repr

def mkPoolEntry (pool : AddressPool) : PoolEntry :=
  { name := pool.name
    protocol := pool.protocol
    addresses := pool.addresses
    avoidBuggyIps := true }

/-- `MetalLB.constructor` values: `configInline['address-pools'] =
props?.addressPools?.map(...)`. -/
def addressPoolsValue (pools : Option (List AddressPool)) : Option (List PoolEntry) :=
  pools.map (fun l => l.map mkPoolEntry)

end MetalLB

/-! ## Grafana (src/packages/grafana/index.ts) -/

namespace Grafana

/-- `abstractions.Ingress` input record, the fields the Grafana constructor
reads (`class` is a Lean keyword, renamed `className`). -/
structure Ingress where
  enabled : Option Bool
  className : Option String
  tls : Option Bool
  annotations : Option (List (String × String))
  hosts : Option (List String)
deriving DecidableEq, Repr

structure Persistence where
  enabled : Option Bool
  sizeGB : Nat
  storageClass : Option String
deriving DecidableEq, Repr

/-- The `GrafanaDashboard` union minus its `name` discriminant: the `rest`
captured by `const \x7b name, ...rest \x7d = curr`. -/
inductive DashboardSource where
  | json (json : String)
  | file (file : String)
  | gnet (gnetId : Nat) (revision : Option Nat) (datasource : Option String)
  | url (url : String) (b64content : Option Bool)
deriving DecidableEq, Repr

structure GrafanaDashboard where
  name : String
  source : DashboardSource
deriving DecidableEq, Repr

structure GrafanaDataSource where
  name : String
  type : String
  url : String
deriving DecidableEq, Repr

structure GrafanaInputs where
  version : Option String
  dashboards : Option (List GrafanaDashboard)
  datasources : Option (List GrafanaDataSource)
  ingress : Option Ingress
  persistence : Option Persistence
deriving DecidableEq, Repr

/-- The two annotation entries the constructor computes itself, in object
literal order: ingress class (default nginx) and tls-acme (false only when
the caller set the TLS flag to the literal false). -/
def computedAnnotationEntries (i : Ingress) : List (String × String) :=
  [ ("kubernetes.io/ingress.class", i.className.getD "nginx"),
    ("kubernetes.io/tls-acme", if i.tls = some false then "false" else "true") ]

/-- The full annotations object: computed entries first, then the spread of
the caller-supplied map (absent spreads to nothing). -/
def ingressAnnotationEntries (i : Ingress) : List (String × String) :=
  computedAnnotationEntries i ++ i.annotations.getD []

structure TlsBlock where
  hosts : Option (List String)
  secretName : String
deriving DecidableEq, Repr

/-- The `ingress` values subtree: `\x7b enabled: false \x7d` when no ingress
spec is given, otherwise the configured block. -/
inductive IngressValues where
  | disabled
  | configured (enabled : Bool) (annotations : List (String × String))
      (hosts : Option (List String)) (tls : List TlsBlock)
deriving DecidableEq, Repr

def ingressValues (name : String) (ing : Option Ingress) : IngressValues :=
  match ing with
  | none => IngressValues.disabled
  | some i =>
      IngressValues.configured (i.enabled.getD true) (ingressAnnotationEntries i)
        i.hosts [{ hosts := i.hosts, secretName := "tls-grafana-" ++ name }]

/-- The `persistence` values subtree. -/
inductive PersistenceValues where
  | disabled
  | configured (enabled : Option Bool) (size : String) (storageClass : Option String)
deriving DecidableEq, Repr

def persistenceValues (p : Option Persistence) : PersistenceValues :=
  match p with
  | none => PersistenceValues.disabled
  | some q =>
      PersistenceValues.configured q.enabled (toString q.sizeGB ++ "Gi") q.storageClass

/-- The `grafana.ini` `server` subtree value. JS template interpolation of
`undefined` stringifies to the text undefined, hence the fallback when the
hosts list is present but empty. -/
structure ServerBlock where
  domain : Option String
  root_url : String
deriving DecidableEq, Repr

def grafanaIniServer (hosts : Option (List String)) : Option ServerBlock :=
  match hosts with
  | none => none
  | some hs =>
      some { domain := hs.head?
             root_url := "https://" ++ (hs.head?.getD "undefined") }

structure AuthAnonymousBlock where
  enabled : String
  org_name : String
  org_role : String
deriving DecidableEq, Repr

structure AuthBasicBlock where
  enabled : String
deriving DecidableEq, Repr

structure GrafanaIniBlock where
  server : Option ServerBlock
  authAnonymous : AuthAnonymousBlock
  authBasic : AuthBasicBlock
deriving DecidableEq, Repr

def grafanaIniValue (hosts : Option (List String)) : GrafanaIniBlock :=
  { server := grafanaIniServer hosts
    authAnonymous := { enabled := "true", org_name := "Main Org.", org_role := "Editor" }
    authBasic := { enabled := "false" } }

structure DatasourceEntry where
  name : String
  type : String
  url : String
  access : String
  basicAuth : Bool
  editable : Bool
deriving DecidableEq, Repr

def datasourcesValue (ds : Option (List GrafanaDataSource)) : List DatasourceEntry :=
  match ds with
  | none => []
  | some l =>
      l.map (fun d =>
        { name := d.name, type := d.type, url := d.url
          access := "proxy", basicAuth := false, editable := false })

/-- The `dashboards.default` object built by the reduce: each step spreads
the accumulator and adds the `[name]: rest` binding, which in the
association-list model appends the binding. -/
def dashboardsDefault (l : List GrafanaDashboard) : List (String × DashboardSource) :=
  l.foldl (fun prev curr => prev ++ [(curr.name, curr.source)]) []

def dashboardsValue (ds : Option (List GrafanaDashboard)) :
    Option (List (String × DashboardSource)) :=
  match ds with
  | none => none
  | some l => some (dashboardsDefault l)

structure DashboardProvider where
  name : String
  orgId : Nat
  folder : String
  type : String
  disableDeletion : Bool
  editable : Bool
  path : String
deriving DecidableEq, Repr

def dashboardProvidersValue (ds : Option (List GrafanaDashboard)) :
    Option (List DashboardProvider) :=
  match ds with
  | none => none
  | some _ =>
      some [ { name := "default", orgId := 1, folder := "", type := "file"
               disableDeletion := false, editable := true
               path := "/var/lib/grafana/dashboards/default" } ]

/-- The whole `values` document handed to the Grafana chart (the fields that
depend on inputs, plus the constant blocks). -/
structure GrafanaValues where
  adminUser : String
  ingress : IngressValues
  deploymentStrategyType : String
  persistence : PersistenceValues
  grafanaIni : GrafanaIniBlock
  datasources : List DatasourceEntry
  dashboards : Option (List (String × DashboardSource))
  dashboardProviders : Option (List DashboardProvider)
deriving DecidableEq, Repr

def grafanaValues (name : String) (props : Option GrafanaInputs) : GrafanaValues :=
  { adminUser := "admin"
    ingress := ingressValues name (props.bind GrafanaInputs.ingress)
    deploymentStrategyType := "Recreate"
    persistence := persistenceValues (props.bind GrafanaInputs.persistence)
    grafanaIni := grafanaIniValue ((props.bind GrafanaInputs.ingress).bind Ingress.hosts)
    datasources := datasourcesValue (props.bind GrafanaInputs.datasources)
    dashboards := dashboardsValue (props.bind GrafanaInputs.dashboards)
    dashboardProviders := dashboardProvidersValue (props.bind GrafanaInputs.dashboards) }

/-- Modelled from the spec: the random-secret generator primitive
(`RandomString` of the orchestration engine) is external to this
repository. The spec describes it as a deterministic-per-identity
secret-generator port producing `length` characters, alphanumeric only
when `special` is false; it is modelled as a pure function of the
injected randomness stream `seed`. -/
def alnumChars : List Char :=
  "abcdefghijklmnopqrstuvwxyzABCDEFGHIJKLMNOPQRSTUVWXYZ0123456789".toList

/-- Modelled from the spec: extra characters available when `special`
is true (never used by the Grafana component, which sets `special: false`). -/
def specialExtraChars : List Char := "!@#$%&*()-_=+".toList

structure RandomStringArgs where
  length : Nat
  special : Bool
deriving DecidableEq, Repr

/-- Modelled from the spec: deterministic draw of `args.length` characters
from the alphabet selected by `args.special`. -/
def randomString (seed : Nat → Nat) (args : RandomStringArgs) : String :=
  let alphabet := if args.special then alnumChars ++ specialExtraChars else alnumChars
  String.mk ((List.range args.length).map
    (fun i => alphabet.getD (seed i % alphabet.length) 'a'))

/-- The admin password resource request made by the Grafana constructor:
length 32, special characters disabled. -/
def grafanaAdminPassword (seed : Nat → Nat) : String :=
  randomString seed { length := 32, special := false }

end Grafana

/-! ## Claim theorems -/

/-- Every character drawn from the alphanumeric alphabet (or its fallback)
is alphanumeric. -/
theorem alnumChars_getD_isAlphanum (n : Nat) :
    ((Grafana.alnumChars.getD n 'a').isAlphanum) = true := by
  by_cases h : n < Grafana.alnumChars.length
  · have hmem : Grafana.alnumChars.getD n 'a' ∈ Grafana.alnumChars := by
      rw [List.getD_eq_getElem _ _ h]
      exact List.getElem_mem h
    have hall : ∀ d ∈ Grafana.alnumChars, d.isAlphanum = true := by decide
    exact hall _ hmem
  · rw [List.getD_eq_default _ _ (Nat.le_of_not_lt h)]
    decide

/-- C1: in Deployment mode (also the default mode, and the default replica
count), a replica count of at most one produces an absent affinity key,
while a replica count of at least two produces the soft pod-anti-affinity
preference over the hostname topology selecting app=nginx-ingress and
component=controller. -/
theorem c1_deployment_affinity (p : NginxIngress.DeploymentModeProps) :
    (p.replicas.getD 1 ≤ 1 → (NginxIngress.deploymentValues p).affinity = none) ∧
    (2 ≤ p.replicas.getD 1 →
      (NginxIngress.deploymentValues p).affinity = some NginxIngress.nginxAntiAffinity) ∧
    (NginxIngress.deploymentValues { p with replicas := none }).affinity = none ∧
    NginxIngress.controllerValues none =
      NginxIngress.ControllerValues.deployment
        (NginxIngress.deploymentValues
          { replicas := some 1, loadBalancerIP := none, serviceAnnotations := none }) ∧
    (NginxIngress.deploymentValues
      { replicas := some 1, loadBalancerIP := none, serviceAnnotations := none }).affinity
      = none := by
  refine ⟨?_, ?_, ?_, rfl, rfl⟩
  · intro h
    simp [NginxIngress.deploymentValues, h]
  · intro h
    have h1 : ¬ (p.replicas.getD 1 ≤ 1) := by omega
    simp [NginxIngress.deploymentValues, h1]
  · simp [NginxIngress.deploymentValues]

theorem c1_deployment_affinity_witness :
    ((some (1 : Int)).getD 1 ≤ 1 ∧
      (NginxIngress.deploymentValues
        { replicas := some 1, loadBalancerIP := none, serviceAnnotations := none }).affinity
        = none) ∧
    (2 ≤ (some (3 : Int)).getD 1 ∧
      (NginxIngress.deploymentValues
        { replicas := some 3, loadBalancerIP := none, serviceAnnotations := none }).affinity
        = some NginxIngress.nginxAntiAffinity) :=
  ⟨⟨by decide,
    (c1_deployment_affinity
      { replicas := some 1, loadBalancerIP := none, serviceAnnotations := none }).1
      (by decide)⟩,
   ⟨by decide,
    (c1_deployment_affinity
      { replicas := some 3, loadBalancerIP := none, serviceAnnotations := none }).2.1
      (by decide)⟩⟩

/-- C2 counterexample: an explicitly supplied empty dashboards list is zero
dashboards, yet both the dashboards and dashboardProviders keys are emitted
(present-but-empty default map, fixed provider list), not absent. -/
theorem c2_dashboards_counterexample :
    Grafana.dashboardsValue (some []) = some [] ∧
    Grafana.dashboardsValue (some []) ≠ none ∧
    Grafana.dashboardProvidersValue (some []) ≠ none := by
  refine ⟨rfl, ?_, ?_⟩ <;> simp [Grafana.dashboardsValue, Grafana.dashboardProvidersValue]

/-- C2 (amended): the dashboards and dashboardProviders keys are both absent
exactly when the dashboards input itself is absent; any supplied dashboards
list, even an empty one, makes both keys present. -/
theorem c2_dashboards_absence (name : String) (props : Grafana.GrafanaInputs) :
    (props.dashboards = none →
      (Grafana.grafanaValues name (some props)).dashboards = none ∧
      (Grafana.grafanaValues name (some props)).dashboardProviders = none) ∧
    (props.dashboards ≠ none →
      (Grafana.grafanaValues name (some props)).dashboards ≠ none ∧
      (Grafana.grafanaValues name (some props)).dashboardProviders ≠ none) := by
  constructor
  · intro h
    simp [Grafana.grafanaValues, Grafana.dashboardsValue,
      Grafana.dashboardProvidersValue, h]
  · intro h
    cases hd : props.dashboards with
    | none => exact absurd hd h
    | some l =>
      simp [Grafana.grafanaValues, Grafana.dashboardsValue,
        Grafana.dashboardProvidersValue, hd]

theorem c2_dashboards_absence_witness :
    (Grafana.grafanaValues "g"
      (some { version := none, dashboards := none, datasources := none,
              ingress := none, persistence := none })).dashboards = none ∧
    (Grafana.grafanaValues "g"
      (some { version := none, dashboards := none, datasources := none,
              ingress := none, persistence := none })).dashboardProviders = none :=
  (c2_dashboards_absence "g"
    { version := none, dashboards := none, datasources := none,
      ingress := none, persistence := none }).1 rfl

/-- C3 counterexample: with a present-but-empty hosts list the server block
is not omitted; it is emitted with no domain and the junk root URL
https://undefined. -/
theorem c3_server_counterexample :
    Grafana.grafanaIniServer (some []) =
      some { domain := none, root_url := "https://undefined" } ∧
    Grafana.grafanaIniServer (some []) ≠ none := by
  refine ⟨rfl, ?_⟩
  simp [Grafana.grafanaIniServer]

/-- C3 (amended): with a non-empty hosts list the server block carries the
first hostname as domain and https prefix as root URL; with an absent hosts
list the block is omitted; with a present-but-empty hosts list the block is
emitted with an absent domain and root URL https://undefined. -/
theorem c3_server_block (hosts : Option (List String)) :
    (hosts = none → Grafana.grafanaIniServer hosts = none) ∧
    (∀ h t, hosts = some (h :: t) →
      Grafana.grafanaIniServer hosts =
        some { domain := some h, root_url := "https://" ++ h }) ∧
    (hosts = some [] →
      Grafana.grafanaIniServer hosts =
        some { domain := none, root_url := "https://undefined" }) := by
  refine ⟨?_, ?_, ?_⟩
  · intro h
    simp [Grafana.grafanaIniServer, h]
  · intro h t hht
    simp [Grafana.grafanaIniServer, hht]
  · intro h
    simp [Grafana.grafanaIniServer, h]

theorem c3_server_block_witness :
    Grafana.grafanaIniServer (some ["g.example.com"]) =
      some { domain := some "g.example.com", root_url := "https://" ++ "g.example.com" } ∧
    Grafana.grafanaIniServer none = none :=
  ⟨(c3_server_block (some ["g.example.com"])).2.1 "g.example.com" [] rfl,
   (c3_server_block none).1 rfl⟩

/-- C4 counterexample: a present-but-empty address-pool list does not yield
an absent address-pools key; the key is emitted holding an empty list. -/
theorem c4_pools_counterexample :
    MetalLB.addressPoolsValue (some []) = some [] ∧
    MetalLB.addressPoolsValue (some []) ≠ none := by
  refine ⟨rfl, ?_⟩
  simp [MetalLB.addressPoolsValue]

/-- C4 (amended): an absent address-pool input yields an absent
address-pools key (the chart default applies); a supplied list, even an
empty one, is emitted as the entrywise mapping of the input. -/
theorem c4_pools_absence :
    MetalLB.addressPoolsValue none = none ∧
    ∀ l, MetalLB.addressPoolsValue (some l) = some (l.map MetalLB.mkPoolEntry) :=
  ⟨rfl, fun _ => rfl⟩

/-- C5: the final annotations object is computed defaults followed by the
caller map, so a binding present in the caller map wins on key collision
and no caller binding is dropped, while keys untouched by the caller keep
their computed value. -/
theorem c5_annotation_merge (i : Grafana.Ingress) (k : String) :
    (∀ v, objLookup (i.annotations.getD []) k = some v →
      objLookup (Grafana.ingressAnnotationEntries i) k = some v) ∧
    (objLookup (i.annotations.getD []) k = none →
      objLookup (Grafana.ingressAnnotationEntries i) k =
        objLookup (Grafana.computedAnnotationEntries i) k) := by
  constructor
  · intro v hv
    exact objLookup_append_right _ _ _ _ hv
  · intro hnone
    exact objLookup_append_left _ _ _ hnone

theorem c5_annotation_merge_witness :
    objLookup
      (Grafana.ingressAnnotationEntries
        { enabled := none, className := none, tls := none,
          annotations := some [("kubernetes.io/ingress.class", "custom")],
          hosts := none })
      "kubernetes.io/ingress.class" = some "custom" :=
  (c5_annotation_merge
    { enabled := none, className := none, tls := none,
      annotations := some [("kubernetes.io/ingress.class", "custom")],
      hosts := none }
    "kubernetes.io/ingress.class").1 "custom" (by decide)

/-- C6: the computed tls-acme annotation is the string true when the TLS
flag is unset or set to true, and the string false when the flag is set to
the literal false. -/
theorem c6_tls_acme (i : Grafana.Ingress) :
    ((i.tls = none ∨ i.tls = some true) →
      objLookup (Grafana.computedAnnotationEntries i) "kubernetes.io/tls-acme" =
        some "true") ∧
    (i.tls = some false →
      objLookup (Grafana.computedAnnotationEntries i) "kubernetes.io/tls-acme" =
        some "false") := by
  have hbase : objLookup (Grafana.computedAnnotationEntries i) "kubernetes.io/tls-acme" =
      some (if i.tls = some false then "false" else "true") := rfl
  constructor
  · rintro (h | h) <;> rw [hbase, h] <;> rfl
  · intro h
    rw [hbase, h]
    rfl

theorem c6_tls_acme_witness :
    objLookup
      (Grafana.computedAnnotationEntries
        { enabled := none, className := none, tls := none,
          annotations := none, hosts := none })
      "kubernetes.io/tls-acme" = some "true" ∧
    objLookup
      (Grafana.computedAnnotationEntries
        { enabled := none, className := none, tls := some false,
          annotations := none, hosts := none })
      "kubernetes.io/tls-acme" = some "false" :=
  ⟨(c6_tls_acme
      { enabled := none, className := none, tls := none,
        annotations := none, hosts := none }).1 (Or.inl rfl),
   (c6_tls_acme
      { enabled := none, className := none, tls := some false,
        annotations := none, hosts := none }).2 rfl⟩

/-- C7: the tcp/udp values block is exactly the entrywise mapping of the
service table, each backend resolved to its namespace/serviceName:port
locator string; every input key appears, and nothing else does. -/
theorem c7_l4_services (m : List (Nat × NginxIngress.L4ServiceBackend)) :
    NginxIngress.l4Services m =
      m.map (fun e => (e.1, NginxIngress.l4Backend e.2)) ∧
    (∀ p s, (p, s) ∈ NginxIngress.l4Services m ↔
      ∃ b, (p, b) ∈ m ∧ s = NginxIngress.l4Backend b) := by
  refine ⟨rfl, ?_⟩
  intro p s
  constructor
  · intro h
    simp only [NginxIngress.l4Services, List.mem_map] at h
    obtain ⟨e, he, heq⟩ := h
    obtain ⟨h1, h2⟩ := Prod.mk.injEq .. ▸ heq
    exact ⟨e.2, by simpa [← h1] using he, h2.symm⟩
  · rintro ⟨b, hb, rfl⟩
    simp only [NginxIngress.l4Services, List.mem_map]
    exact ⟨(p, b), hb, rfl⟩

theorem c7_l4_services_witness :
    NginxIngress.l4Services
      [(5432, { ns := "db", serviceName := "postgres", servicePort := 5432 })] =
      [(5432, "db/postgres:5432")] := by
  rw [(c7_l4_services
    [(5432, { ns := "db", serviceName := "postgres", servicePort := 5432 })]).1]
  decide

/-- C8: for a non-empty address-pool list, the emitted entries are exactly
the entrywise mapping of the input, and every emitted entry keeps the input
name, protocol and addresses while avoid-buggy-ips is forced to true. -/
theorem c8_pool_entries (l : List MetalLB.AddressPool) (hl : l ≠ []) :
    ∃ es, MetalLB.addressPoolsValue (some l) = some es ∧
      es = l.map MetalLB.mkPoolEntry ∧
      es ≠ [] ∧
      ∀ e ∈ es, e.avoidBuggyIps = true ∧
        ∃ p ∈ l, e.name = p.name ∧ e.protocol = p.protocol ∧
          e.addresses = p.addresses := by
  refine ⟨l.map MetalLB.mkPoolEntry, rfl, rfl, by simpa using hl, ?_⟩
  intro e he
  simp only [List.mem_map] at he
  obtain ⟨p, hp, rfl⟩ := he
  exact ⟨rfl, p, hp, rfl, rfl, rfl⟩

theorem c8_pool_entries_witness :
    ([({ name := "p1", protocol := "layer2",
         addresses := ["192.168.0.10-192.168.0.99"] } : MetalLB.AddressPool)] ≠ []) ∧
    (∃ es, MetalLB.addressPoolsValue
        (some [{ name := "p1", protocol := "layer2",
                 addresses := ["192.168.0.10-192.168.0.99"] }]) = some es ∧
      es = [{ name := "p1", protocol := "layer2",
              addresses := ["192.168.0.10-192.168.0.99"] }].map MetalLB.mkPoolEntry ∧
      es ≠ [] ∧
      ∀ e ∈ es, e.avoidBuggyIps = true ∧
        ∃ p ∈ [({ name := "p1", protocol := "layer2",
                  addresses := ["192.168.0.10-192.168.0.99"] } : MetalLB.AddressPool)],
          e.name = p.name ∧ e.protocol = p.protocol ∧ e.addresses = p.addresses) :=
  ⟨by simp,
   c8_pool_entries
     [{ name := "p1", protocol := "layer2",
        addresses := ["192.168.0.10-192.168.0.99"] }] (by simp)⟩

/-- C9: the generated administrator password has length 32, every character
is alphanumeric, and the generation is deterministic in the injected
randomness identity. -/
theorem c9_admin_password (seed seed2 : Nat → Nat) :
    (Grafana.grafanaAdminPassword seed).length = 32 ∧
    (∀ c ∈ (Grafana.grafanaAdminPassword seed).toList, c.isAlphanum = true) ∧
    (seed = seed2 →
      Grafana.grafanaAdminPassword seed = Grafana.grafanaAdminPassword seed2) := by
  refine ⟨?_, ?_, fun h => by rw [h]⟩
  · simp [Grafana.grafanaAdminPassword, Grafana.randomString, String.length]
  · intro c hc
    simp only [Grafana.grafanaAdminPassword, Grafana.randomString, String.toList,
      List.mem_map, List.mem_range] at hc
    obtain ⟨i, _, rfl⟩ := hc
    exact alnumChars_getD_isAlphanum _

theorem c9_admin_password_witness :
    ((fun i : Nat => i + 1) = (fun i : Nat => i + 1)) ∧
    (Grafana.grafanaAdminPassword (fun i => i + 1)).length = 32 ∧
    Grafana.grafanaAdminPassword (fun i => i + 1) =
      Grafana.grafanaAdminPassword (fun i => i + 1) :=
  ⟨rfl, (c9_admin_password (fun i => i + 1) (fun i => i + 1)).1,
   (c9_admin_password (fun i => i + 1) (fun i => i + 1)).2.2 rfl⟩

/-- C10: regardless of the component name and all inputs, the grafana.ini
values fix anonymous auth enabled true with org role Editor, and basic auth
enabled false. -/
theorem c10_auth_blocks (name : String) (props : Option Grafana.GrafanaInputs) :
    (Grafana.grafanaValues name props).grafanaIni.authAnonymous =
      { enabled := "true", org_name := "Main Org.", org_role := "Editor" } ∧
    (Grafana.grafanaValues name props).grafanaIni.authBasic =
      { enabled := "false" } :=
  ⟨rfl, rfl⟩

end Kloudlib
